import Mathlib

/-!
Verification development for the device-discovery and connector layer of the
Detec-O repository (`backend/app/services/connectors/`).

The Python sources are shallowly embedded as pure Lean functions:

* network I/O (aiohttp GETs, TCP connects, SOAP calls) is modelled by a
  `ProbeResult` value carried in a device-behaviour record: `.failure` stands
  for a raised exception (network error, timeout, or XML parse error raised
  while handling the response) and `.response status body` for a completed
  HTTP exchange whose body has already been parsed into the fields the code
  reads via `ElementTree`;
* connector objects become explicit state records threaded through the
  operations; `uuid.uuid4()` becomes an explicit `uid` parameter supplying
  the fresh identifier generated during that call; `datetime.now()` values
  are omitted (no claim mentions them);
* Python `raise ConnectorError(msg)` becomes `Except.error msg` (messages are
  abbreviated ASCII renderings of the Portuguese originals);
* Python dicts become association lists (`PyDict`) with first-match lookup.
-/

namespace DetecO

/-- Result of one network exchange: `failure` models a raised exception
(timeout, refused connection, or a parse error raised while reading the
body); `response` models a completed HTTP exchange, with the body already
parsed into the shape the code extracts from it. -/
inductive ProbeResult (α : Type) where
  | failure
  | response (status : Nat) (body : α)
deriving DecidableEq

/-- Embedding of `base.DeviceInfo` (dataclass). `capabilities` is the
key/value map restricted to the Bool values the drivers actually store;
`last_seen : datetime` is omitted (real time, no claim mentions it). -/
structure DeviceInfo where
  id : String
  name : String
  model : String
  manufacturer : String
  ip_address : String
  port : Nat
  firmware : Option String := none
  serial_number : Option String := none
  channels : Int := 0
  status : String := "unknown"
  capabilities : List (String × Bool) := []
deriving DecidableEq

/-- Embedding of `base.StreamInfo` (dataclass). -/
structure StreamInfo where
  id : String
  name : String
  url : String
  type : String
  channel : Int
  resolution : Option String := none
  fps : Option Nat := none
  encoding : Option String := none
  ptz_capable : Bool := false
  audio_capable : Bool := false
  device_id : Option String := none
deriving DecidableEq

/-! ## Hikvision connector (`hikvision_connector.py`) -/

/-- Parsed body of `GET /ISAPI/System/deviceInfo`: `valid` is false when
`ET.fromstring` would raise `ParseError`; the other fields are the
`findtext` results (`none` when the tag is absent). -/
structure HikDeviceXml where
  valid : Bool
  deviceName : Option String := none
  model : Option String := none
  serialNumber : Option String := none
  firmwareVersion : Option String := none
deriving DecidableEq

/-- One `<InputProxyChannel>` element of the channel-listing response:
the `findtext` results for `id` and `name`. -/
structure HikChannelXml where
  id : Option String := none
  name : Option String := none
deriving DecidableEq

/-- Behaviour of one Hikvision device as observed by the connector: the
response to the identity endpoint `/ISAPI/System/deviceInfo`, to the
channel listing `/ISAPI/ContentMgmt/InputProxy/channels` (body = the
`findall(".//InputProxyChannel")` list), and, per channel id, to
`/ISAPI/PTZCtrl/channels/(id)/capabilities`.  The device is assumed to
answer deterministically during the run. -/
structure HikDevice where
  deviceInfoResp : ProbeResult HikDeviceXml
  channelsResp : ProbeResult (List HikChannelXml)
  ptzResp : String → ProbeResult Unit

/-- Mutable state of a `HikvisionConnector` instance (fields set in
`__init__` plus the session bookkeeping).  `session` holds the identifier
of the currently assigned `aiohttp.ClientSession` object;
`sessionsCreated` counts how many session objects have been constructed,
so "connect created a new session object" is observable. -/
structure HikConn where
  ip_address : String
  port : Nat
  username : String
  password : String
  rtsp_port : Nat := 554
  use_https : Bool := false
  is_connected : Bool := false
  session : Option Nat := none
  sessionsCreated : Nat := 0
  device_info : Option DeviceInfo := none
deriving DecidableEq

/-- `HikvisionConnector.__init__`. -/
def hikInit (ip : String) (port : Nat) (user pass : String)
    (rtsp : Nat := 554) (https : Bool := false) : HikConn :=
  { ip_address := ip, port := port, username := user, password := pass,
    rtsp_port := rtsp, use_https := https }

/-- `HikvisionConnector.connect`: unconditionally constructs a fresh
`aiohttp.ClientSession` (there is no `is_connected` guard in the source),
then probes `/ISAPI/System/deviceInfo`; HTTP 200 with parseable XML sets
`is_connected`, every other outcome clears it and raises. -/
def hikConnect (dev : HikDevice) (c : HikConn) : Except String Bool × HikConn :=
  let c1 := { c with session := some c.sessionsCreated,
                     sessionsCreated := c.sessionsCreated + 1 }
  match dev.deviceInfoResp with
  | .failure =>
      (.error "Erro ao conectar", { c1 with is_connected := false })
  | .response s body =>
      if s ≠ 200 then
        (.error "Erro ao conectar: HTTP nao-200", { c1 with is_connected := false })
      else if !body.valid then
        (.error "Resposta XML invalida", { c1 with is_connected := false })
      else
        (.ok true, { c1 with is_connected := true })

/-- `HikvisionConnector.disconnect`: closes the session and clears
`is_connected` (the session attribute itself is not reset in the source). -/
def hikDisconnect (c : HikConn) : Except String Bool × HikConn :=
  (.ok true, { c with is_connected := false })

/-- The channel count computed inside `get_device_info`: defaults to 1 and
is replaced by the length of the `InputProxyChannel` list only when the
channel probe answers HTTP 200 with a non-empty list (any exception or
non-200 status is swallowed by the bare `except: pass`). -/
def hikNumChannels (dev : HikDevice) : Int :=
  match dev.channelsResp with
  | .response 200 chs => if chs ≠ [] then (chs.length : Int) else 1
  | _ => 1

/-- `HikvisionConnector.get_device_info`: auto-connects when not connected
(a failing connect propagates), re-reads the identity endpoint, probes the
channel listing (failures default the count to 1), builds the `DeviceInfo`
with a freshly generated uuid (`uid`), and stores it in the state. -/
def hikGetDeviceInfo (dev : HikDevice) (uid : String) (c : HikConn) :
    Except String DeviceInfo × HikConn :=
  match (if c.is_connected then (.ok true, c) else hikConnect dev c) with
  | (.error e, c1) => (.error e, c1)
  | (.ok _, c1) =>
    match dev.deviceInfoResp with
    | .failure => (.error "Erro de rede ao obter informacoes", c1)
    | .response s body =>
      if s ≠ 200 then (.error "Erro ao obter informacoes: HTTP nao-200", c1)
      else if !body.valid then (.error "Erro ao obter informacoes do dispositivo Hikvision", c1)
      else
        let info : DeviceInfo :=
          { id := uid,
            name := body.deviceName.getD "Unknown Device",
            model := body.model.getD "Unknown Model",
            manufacturer := "Hikvision",
            ip_address := c1.ip_address,
            port := c1.port,
            firmware := body.firmwareVersion,
            serial_number := body.serialNumber,
            channels := hikNumChannels dev,
            status := "online",
            capabilities := [("ptz", false), ("audio", true), ("recording", true)] }
        (.ok info, { c1 with device_info := some info })

/-- Python `str.isdigit` restricted to ASCII digits: true iff the string is
non-empty and all characters are digits. -/
def pyIsDigit (s : String) : Bool :=
  s.length > 0 && s.all Char.isDigit

/-- Python `int(s)` for an all-digit string `s` (the only shape the code
feeds it after the `isdigit` check). -/
def digitsToNat (s : String) : Nat :=
  s.foldl (fun n ch => n * 10 + (ch.toNat - 48)) 0

/-- The channel number string extracted from a channel id: the last
`"_"`-separated segment (`channel_id.split("_")[-1]`), replaced by `"1"`
when it is not all-digits. -/
def hikChannelNumStr (cid : String) : String :=
  let last := (cid.splitOn "_").getLastD cid
  if pyIsDigit last then last else "1"

/-- The RTSP URL template
`rtsp://user:pass@ip:rtsp_port/Streaming/Channels/<num><suffix>`. -/
def hikStreamUrl (c : HikConn) (num suffix : String) : String :=
  "rtsp://" ++ c.username ++ ":" ++ c.password ++ "@" ++ c.ip_address ++ ":"
    ++ toString c.rtsp_port ++ "/Streaming/Channels/" ++ num ++ suffix

/-- The PTZ-capability probe for one channel id: true only when
`/ISAPI/PTZCtrl/channels/(id)/capabilities` answers HTTP 200; a raised
exception or any other status leaves the flag false. -/
def hikPtzCapable (dev : HikDevice) (cid : String) : Bool :=
  match dev.ptzResp cid with
  | .response 200 _ => true
  | _ => false

/-- Loop body of the multi-channel branch of `list_streams`: for one
`<InputProxyChannel>` element, skip it when its id text is empty,
otherwise emit the main/sub stream pair (PTZ probed best-effort). -/
def hikChannelStreams (dev : HikDevice) (c : HikConn) (di : DeviceInfo)
    (ch : HikChannelXml) : List StreamInfo :=
  let cid := ch.id.getD ""
  if cid = "" then []
  else
    let num := hikChannelNumStr cid
    let chName := ch.name.getD ("Camera " ++ num)
    let ptz := hikPtzCapable dev cid
    [ { id := num ++ "_1", name := chName ++ " - Main",
        url := hikStreamUrl c num "01", type := "rtsp",
        channel := (digitsToNat num : Int), encoding := some "H.264",
        ptz_capable := ptz, audio_capable := true, device_id := some di.id },
      { id := num ++ "_2", name := chName ++ " - Sub",
        url := hikStreamUrl c num "02", type := "rtsp",
        channel := (digitsToNat num : Int), encoding := some "H.264",
        ptz_capable := ptz, audio_capable := true, device_id := some di.id } ]

/-- The fixed main/sub pair synthesized for a single-camera device
(`device_info.channels <= 1` branch of `list_streams`). -/
def hikSingleStreams (c : HikConn) (di : DeviceInfo) : List StreamInfo :=
  [ { id := "1", name := "Main Stream", url := hikStreamUrl c "1" "01",
      type := "rtsp", channel := 1, encoding := some "H.264",
      ptz_capable := false, audio_capable := true, device_id := some di.id },
    { id := "2", name := "Sub Stream", url := hikStreamUrl c "1" "02",
      type := "rtsp", channel := 1, encoding := some "H.264",
      ptz_capable := false, audio_capable := true, device_id := some di.id } ]

/-- `HikvisionConnector.list_streams`: auto-connects and auto-fetches
`device_info` when missing (their failures propagate); for
`channels <= 1` synthesizes the fixed main/sub pair; otherwise re-reads
the channel listing (a failed or non-200 listing raises, wrapped by the
outer `except`) and emits a main/sub pair per listed channel. -/
def hikListStreams (dev : HikDevice) (uid : String) (c : HikConn) :
    Except String (List StreamInfo) × HikConn :=
  match (if c.is_connected then (.ok true, c) else hikConnect dev c) with
  | (.error e, c1) => (.error e, c1)
  | (.ok _, c1) =>
    match (match c1.device_info with
           | some di => (Except.ok di, c1)
           | none => hikGetDeviceInfo dev uid c1) with
    | (.error e, c2) => (.error e, c2)
    | (.ok di, c2) =>
      if di.channels ≤ 1 then
        (.ok (hikSingleStreams c2 di), c2)
      else
        match dev.channelsResp with
        | .failure => (.error "Erro ao listar streams Hikvision", c2)
        | .response s chs =>
          if s ≠ 200 then (.error "Erro ao listar canais: HTTP nao-200", c2)
          else (.ok (chs.flatMap (hikChannelStreams dev c2 di)), c2)

/-! ## ONVIF connector (`onvif_connector.py`) -/

/-- Result of the SOAP `GetDeviceInformation` call: the attributes the code
reads (`FriendlyName` via `getattr` with fallback, `Manufacturer`, `Model`,
`FirmwareVersion`, `SerialNumber` via `getattr`). -/
structure OnvifDeviceXml where
  friendlyName : Option String := none
  manufacturer : String
  model : String
  firmwareVersion : String
  serialNumber : Option String := none
deriving DecidableEq

/-- Video-encoder configuration attached to a profile
(`VideoEncoderConfiguration`): resolution, optional rate control, codec. -/
structure OnvifVideoConfig where
  width : Nat
  height : Nat
  frameRateLimit : Option Nat := none
  encoding : String
deriving DecidableEq

/-- One media profile as the code reads it: token, name, the resolved
stream URI (`GetStreamUri` result for this token on the success path),
optional video configuration, and presence of PTZ / audio configuration. -/
structure OnvifProfile where
  token : String
  name : String
  uri : String
  videoConfig : Option OnvifVideoConfig := none
  hasPTZConfig : Bool := false
  hasAudioConfig : Bool := false
deriving DecidableEq

/-- Behaviour of one ONVIF device: whether the `GetCapabilities` handshake
succeeds, which sub-services it advertises, the `GetDeviceInformation`
payload (`failure` = raised SOAP/transport error), and the
`GetProfiles` payload (`failure` = raised error, mapped to `channels = 0`
in `get_device_info` and to a raised error in `list_streams`). -/
structure OnvifDevice where
  capabilitiesOk : Bool
  hasMedia : Bool
  hasPTZ : Bool
  hasEvents : Bool
  deviceInfoResp : ProbeResult OnvifDeviceXml
  profilesResp : ProbeResult (List OnvifProfile)

/-- Mutable state of an `OnvifConnector` instance. -/
structure OnvifConn where
  ip_address : String
  port : Nat
  username : String
  password : String
  is_connected : Bool := false
  media_present : Bool := false
  ptz_present : Bool := false
  events_present : Bool := false
  device_info : Option DeviceInfo := none
deriving DecidableEq

/-- `OnvifConnector.connect`: performs the `GetCapabilities` exchange;
success records which sub-services exist and sets `is_connected`, any
raised error clears it. -/
def onvifConnect (dev : OnvifDevice) (c : OnvifConn) :
    Except String Bool × OnvifConn :=
  if dev.capabilitiesOk then
    (.ok true, { c with is_connected := true, media_present := dev.hasMedia,
                        ptz_present := dev.hasPTZ, events_present := dev.hasEvents })
  else
    (.error "Erro ao conectar ao dispositivo ONVIF", { c with is_connected := false })

/-- Channel count set after building the `DeviceInfo`: length of the
profile list when the media client exists and `GetProfiles` completes
(any status), 0 when it raises; left at the dataclass default 0 when
there is no media client. -/
def onvifNumChannels (dev : OnvifDevice) (mediaPresent : Bool) : Int :=
  if mediaPresent then
    match dev.profilesResp with
    | .response _ profs => (profs.length : Int)
    | .failure => 0
  else 0

/-- `OnvifConnector.get_device_info`: auto-connects, calls
`GetDeviceInformation` (a raised error becomes `ConnectorError`), builds
the `DeviceInfo` with a fresh uuid (`uid`), then fills in channel count
and capability flags, and stores the record. -/
def onvifGetDeviceInfo (dev : OnvifDevice) (uid : String) (c : OnvifConn) :
    Except String DeviceInfo × OnvifConn :=
  match (if c.is_connected then (.ok true, c) else onvifConnect dev c) with
  | (.error e, c1) => (.error e, c1)
  | (.ok _, c1) =>
    match dev.deviceInfoResp with
    | .failure => (.error "Erro ao obter informacoes do dispositivo ONVIF", c1)
    | .response _ body =>
      let info : DeviceInfo :=
        { id := uid,
          name := body.friendlyName.getD body.manufacturer,
          model := body.model,
          manufacturer := body.manufacturer,
          ip_address := c1.ip_address,
          port := c1.port,
          firmware := some body.firmwareVersion,
          serial_number := body.serialNumber,
          channels := onvifNumChannels dev c1.media_present,
          status := "online",
          capabilities := [("ptz", c1.ptz_present), ("events", c1.events_present),
                           ("media", c1.media_present)] }
      (.ok info, { c1 with device_info := some info })

/-- Loop of `OnvifConnector.list_streams` over the profile list: the
stream built for profile `p` at enumeration index `idx` — note
`channel := idx`, the 0-based `enumerate` index. -/
def onvifStreamOfProfile (ptzPresent : Bool) (deviceId : Option String)
    (idx : Nat) (p : OnvifProfile) : StreamInfo :=
  { id := p.token,
    name := p.name,
    url := p.uri,
    type := "rtsp",
    channel := (idx : Int),
    resolution := p.videoConfig.map (fun v => toString v.width ++ "x" ++ toString v.height),
    fps := p.videoConfig.bind (fun v => v.frameRateLimit),
    encoding := p.videoConfig.map (fun v => v.encoding),
    ptz_capable := ptzPresent && p.hasPTZConfig,
    audio_capable := p.hasAudioConfig,
    device_id := deviceId }

/-- The stream list built from the profiles (`for idx, profile in
enumerate(profiles)`). -/
def onvifStreamsOfProfiles (profiles : List OnvifProfile) (ptzPresent : Bool)
    (deviceId : Option String) : List StreamInfo :=
  (profiles.enum).map (fun ip => onvifStreamOfProfile ptzPresent deviceId ip.1 ip.2)

/-- `OnvifConnector.list_streams`: auto-connects, requires the media
service, calls `GetProfiles` (a raised error becomes `ConnectorError`)
and maps each profile to a `StreamInfo`. -/
def onvifListStreams (dev : OnvifDevice) (c : OnvifConn) :
    Except String (List StreamInfo) × OnvifConn :=
  match (if c.is_connected then (.ok true, c) else onvifConnect dev c) with
  | (.error e, c1) => (.error e, c1)
  | (.ok _, c1) =>
    if !c1.media_present then (.error "Servico de midia nao disponivel", c1)
    else
      match dev.profilesResp with
      | .failure => (.error "Erro ao listar streams ONVIF", c1)
      | .response _ profs =>
        (.ok (onvifStreamsOfProfiles profs c1.ptz_present
               (c1.device_info.map (fun di => di.id))), c1)

/-! ## Connector factory (`factory.py`) -/

/-- A Python configuration value (the shapes that occur in connector
configs). -/
inductive PyVal where
  | str (s : String)
  | int (n : Int)
  | bool (b : Bool)
deriving DecidableEq

/-- A Python dict as an association list; keys are unique in any dict the
interpreter produces, and lookup takes the first match. -/
abbrev PyDict := List (String × PyVal)

/-- `config[k]` / `k in config`: first-match lookup. -/
def dictLookup (cfg : PyDict) (k : String) : Option PyVal :=
  (cfg.find? (fun p => p.1 = k)).map (fun p => p.2)

/-- `config.pop(k)`: the dict with key `k` removed. -/
def dictErase (cfg : PyDict) (k : String) : PyDict :=
  cfg.filter (fun p => p.1 ≠ k)

/-- The registry contents after both driver modules have run their
`@register_connector` decorators (`"hikvision"` and `"onvif"`). -/
def REGISTERED_CONNECTORS : List String := ["hikvision", "onvif"]

/-- A constructed driver instance: the arguments `BaseConnector.__init__`
receives, with `extra` holding the `**kwargs` dict. -/
structure ConnectorInstance where
  connector_type : PyVal
  ip_address : PyVal
  port : PyVal
  username : PyVal
  password : PyVal
  extra : PyDict
deriving DecidableEq

/-- The error message raised for an unregistered connector type. -/
def unregisteredMsg : String := "Tipo de conector nao registrado"

/-- The error message raised for a missing required config field. -/
def missingFieldMsg (f : String) : String :=
  "Campo obrigatorio ausente na configuracao: " ++ f

/-- `ConnectorFactory.create_connector`: looks the type tag up in the
registry and only then invokes the driver constructor; an unregistered
tag raises `ValueError` before any instance exists.  The tag is kept as a
`PyVal` because `create_from_config` forwards whatever value the config
held; a non-string is never in the registry. -/
def createConnector (tag ip port user pass : PyVal) (extra : PyDict) :
    Except String ConnectorInstance :=
  let registered := match tag with
    | .str s => decide (s ∈ REGISTERED_CONNECTORS)
    | _ => false
  if registered then
    .ok { connector_type := tag, ip_address := ip, port := port,
          username := user, password := pass, extra := extra }
  else
    .error unregisteredMsg

/-- The required config keys of `create_from_config`, in source order. -/
def requiredFields : List String :=
  ["type", "ip_address", "port", "username", "password"]

/-- `ConnectorFactory.create_from_config`: checks the required keys, then
`pop`s each of them out of the caller's dict (an in-place mutation,
returned here as the second component) and forwards the remaining dict as
`**kwargs`.  The result pairs the `create_connector` outcome with the
final state of the caller's dict. -/
def createFromConfig (cfg : PyDict) : Except String ConnectorInstance × PyDict :=
  match requiredFields.find? (fun f => (dictLookup cfg f).isNone) with
  | some f => (.error (missingFieldMsg f), cfg)
  | none =>
    let t := (dictLookup cfg "type").getD (.str "")
    let ip := (dictLookup cfg "ip_address").getD (.str "")
    let port := (dictLookup cfg "port").getD (.str "")
    let user := (dictLookup cfg "username").getD (.str "")
    let pass := (dictLookup cfg "password").getD (.str "")
    let rest := requiredFields.foldl dictErase cfg
    (createConnector t ip port user pass rest, rest)

/-! ## Discovery engine (`discovery.py`) -/

/-- One discovery-result dict.  The typed record covers the keys the
claims touch; keys a probe does not set are modelled by the record
defaults (`demo_device` absent = `false`, `possible_types` absent = `[]`).
`discovered_at` (wall-clock) is omitted. -/
structure DiscDevice where
  ip : String
  port : Nat
  device_type : String := "unknown"
  status : String := "online"
  discovery_method : String := ""
  requires_auth : Bool := false
  possible_types : List String := []
  device_name : String := ""
  model : String := ""
  demo_device : Bool := false
deriving DecidableEq

/-- The fixed candidate port list used by the `"scan"` method. -/
def videoPorts : List Nat := [80, 443, 554, 8000, 8080, 8554, 37777]

/-- The port-based type guess attached by `scan_ip_port`. -/
def possibleTypesForPort (port : Nat) : List String :=
  if port = 80 ∨ port = 443 then ["http_device", "camera", "dvr", "nvr"]
  else if port = 554 then ["rtsp_device", "camera", "dvr", "nvr"]
  else if port = 8000 then ["hikvision"]
  else if port = 37777 then ["dahua"]
  else []

/-- `scan_ip_port` outcome for one host/port, given which (ip, port)
pairs accept a TCP connection (`openPred`): a device dict when the
connect succeeds, `none` on timeout/refusal/error. -/
def scanIpPort (openPred : String → Nat → Bool) (ip : String) (port : Nat) :
    Option DiscDevice :=
  if openPred ip port then
    some { ip := ip, port := port, device_type := "unknown",
           status := "online", possible_types := possibleTypesForPort port }
  else none

/-- `scan_ip_range`: one task per host per candidate port, gathered in
task-creation order, keeping the non-`None` results.  `hosts` stands for
`IPv4Network(subnet).hosts()`; the timeout and the semaphore do not
change which results are produced. -/
def scanIpRange (hosts : List String) (ports : List Nat)
    (openPred : String → Nat → Bool) : List DiscDevice :=
  (hosts.flatMap (fun ip => ports.map (fun port => scanIpPort openPred ip port))).filterMap id

/-- The merge key of `discover_devices`: `f"(ip):(port)"` with
`device.get("port", 0)` (every probe in the model sets `port`). -/
def mergeKey (d : DiscDevice) : String :=
  d.ip ++ ":" ++ toString d.port

/-- The de-duplication loop of `discover_devices`: walk the results in
order, keep a device iff its key has not been seen, remember seen keys. -/
def mergeLoop : List DiscDevice → List String → List DiscDevice
  | [], _ => []
  | d :: rest, seen =>
    if mergeKey d ∈ seen then mergeLoop rest seen
    else d :: mergeLoop rest (mergeKey d :: seen)

/-- The merge step of `discover_devices`: all per-method result lists are
walked in order and de-duplicated by `(ip, port)` key, first seen wins. -/
def mergeDevices (results : List (List DiscDevice)) : List DiscDevice :=
  mergeLoop results.flatten []

/-- The three synthetic demo devices injected when no real device was
found (`demo_device: True`, `discovery_method: "demo_simulation"`). -/
def demoDevices : List DiscDevice :=
  [ { ip := "192.168.1.101", port := 80, device_type := "hikvision",
      device_name := "Camera Hikvision", model := "DS-2CD2143G0-I",
      requires_auth := true, discovery_method := "demo_simulation",
      status := "discovered", demo_device := true },
    { ip := "192.168.1.102", port := 80, device_type := "dahua",
      device_name := "Camera Dahua", model := "IPC-HDW1230S",
      requires_auth := true, discovery_method := "demo_simulation",
      status := "discovered", demo_device := true },
    { ip := "192.168.1.103", port := 80, device_type := "onvif",
      device_name := "Camera ONVIF", model := "Generic ONVIF Camera",
      requires_auth := true, discovery_method := "demo_simulation",
      status := "discovered", demo_device := true } ]

/-- `discover_devices(discovery_methods=["scan"], subnets=[s], timeout=t)`
for one explicit subnet: the only task is the port scan of that subnet
(the halved timeout does not change the result set); the merged list is
returned unless it is empty, in which case the demo fallback injects the
three simulated devices. -/
def discoverDevicesScan (hosts : List String)
    (openPred : String → Nat → Bool) : List DiscDevice :=
  let merged := mergeDevices [scanIpRange hosts videoPorts openPred]
  if merged.isEmpty then demoDevices else merged

/-! ## Concurrency model of the port scan (`scan_ip_range` / `scan_ip_port`)

`scan_ip_range` creates one `scan_ip_port` task per host/port pair, all
sharing one `asyncio.Semaphore(max_concurrent)`.  Inside `scan_ip_port`
the TCP connection attempt happens only inside `async with sem:`, so a
task is "in flight" exactly while it holds a permit.  Under asyncio's
cooperative scheduler a run is an interleaving of atomic acquire/release
transitions; we model each task as a three-phase state machine and the
scan as the induced transition system. -/

/-- Phase of one `scan_ip_port` task: not yet holding the semaphore,
holding it (connection attempt in flight), or finished (permit
released). -/
inductive TaskPhase where
  | waiting
  | inflight
  | done
deriving DecidableEq

/-- Global scan state: remaining semaphore permits and the phase of every
task. -/
structure ScanSt where
  sem : Nat
  tasks : List TaskPhase
deriving DecidableEq

/-- Transitions of the scan: a waiting task may acquire a permit (only
when one is available — `async with sem:` blocks otherwise) and start its
connection attempt; an in-flight task may finish and release its
permit. -/
inductive ScanStep : ScanSt → ScanSt → Prop where
  | acquire (st : ScanSt) (i : Nat)
      (h : st.tasks.get? i = some .waiting) (hs : 0 < st.sem) :
      ScanStep st ⟨st.sem - 1, st.tasks.set i .inflight⟩
  | finish (st : ScanSt) (i : Nat)
      (h : st.tasks.get? i = some .inflight) :
      ScanStep st ⟨st.sem + 1, st.tasks.set i .done⟩

/-- Initial state of a scan over `n` host/port tasks with concurrency
limit `k` (`sem = asyncio.Semaphore(max_concurrent)`). -/
def scanInit (k n : Nat) : ScanSt :=
  ⟨k, List.replicate n .waiting⟩

/-- States reachable during the scan. -/
def ScanReachable (k n : Nat) : ScanSt → Prop :=
  Relation.ReflTransGen ScanStep (scanInit k n)

/-- Number of simultaneously in-flight connection attempts. -/
def countInflight (l : List TaskPhase) : Nat :=
  l.countP (fun t => decide (t = TaskPhase.inflight))

/-! ## Concrete fixtures used by witnesses and counterexamples -/

/-- A Hikvision camera double: identity endpoint answers 200 with valid
XML, the channel-listing probe raises, PTZ probes raise. -/
def hikDevOk : HikDevice :=
  { deviceInfoResp := .response 200 { valid := true },
    channelsResp := .failure,
    ptzResp := fun _ => .failure }

/-- The channel listing reported by the 2-channel recorder double. -/
def hikChsMulti : List HikChannelXml :=
  [ { id := some "ip_1_1", name := some "Cam A" },
    { id := some "ip_1_2", name := some "Cam B" } ]

/-- A 2-channel Hikvision recorder double whose PTZ probes all raise. -/
def hikDevMulti : HikDevice :=
  { deviceInfoResp := .response 200 { valid := true, deviceName := some "DVR" },
    channelsResp := .response 200 hikChsMulti,
    ptzResp := fun _ => .failure }

/-- A freshly constructed Hikvision connector state. -/
def hikConn0 : HikConn := hikInit "192.168.1.64" 80 "admin" "12345"

/-- Hikvision connector state after a successful `connect` against
`hikDevOk`. -/
def hikConn1 : HikConn := (hikConnect hikDevOk hikConn0).2

/-- Hikvision connector state after a successful `get_device_info`
against the 2-channel recorder double. -/
def hikConnMulti : HikConn := (hikGetDeviceInfo hikDevMulti "uid-multi" hikConn0).2

/-- An ONVIF camera double with one media profile and no PTZ service. -/
def onvifDevC : OnvifDevice :=
  { capabilitiesOk := true, hasMedia := true, hasPTZ := false, hasEvents := false,
    deviceInfoResp := .response 200
      { manufacturer := "Acme", model := "M1", firmwareVersion := "1.0" },
    profilesResp := .response 200
      [ { token := "prof1", name := "Profile 1", uri := "rtsp://cam/1" } ] }

/-- A freshly constructed ONVIF connector state. -/
def onvifConn0 : OnvifConn :=
  { ip_address := "192.168.1.70", port := 80, username := "admin", password := "pw" }

/-- A config dict whose `type` is not a registered connector tag. -/
def cfgUnknown : PyDict :=
  [ ("type", .str "nonexistent"), ("ip_address", .str "10.0.0.5"),
    ("port", .int 80), ("username", .str "u"), ("password", .str "p"),
    ("rtsp_port", .int 554) ]

/-- A config dict for a registered (`hikvision`) connector with one extra
key. -/
def cfgHik : PyDict :=
  [ ("type", .str "hikvision"), ("ip_address", .str "10.0.0.5"),
    ("port", .int 80), ("username", .str "u"), ("password", .str "p"),
    ("use_https", .bool false) ]

/-- The channel-listing probe of `get_device_info` "fails or returns zero
channels": it raises, answers non-200, or answers 200 with an empty
`InputProxyChannel` list. -/
def hikChannelProbeFailedOrEmpty (dev : HikDevice) : Bool :=
  match dev.channelsResp with
  | .failure => true
  | .response s chs => decide (s ≠ 200) || chs.isEmpty

/-- The PTZ-capability sub-probe for channel id `cid` "fails": it raises
or answers a non-200 status. -/
def hikPtzProbeFails (dev : HikDevice) (cid : String) : Bool :=
  match dev.ptzResp cid with
  | .failure => true
  | .response s _ => decide (s ≠ 200)

/-- The `DeviceInfo` that `get_device_info` produces for the 2-channel
recorder double (uuid supplied as `"uid-multi"`). -/
def diMulti : DeviceInfo :=
  { id := "uid-multi", name := "DVR", model := "Unknown Model",
    manufacturer := "Hikvision", ip_address := "192.168.1.64", port := 80,
    channels := 2, status := "online",
    capabilities := [("ptz", false), ("audio", true), ("recording", true)] }

/-- Result of `get_device_info` on the single-camera double with uuid
`"uuid-1"`. -/
def hikGdiC : Except String DeviceInfo × HikConn :=
  hikGetDeviceInfo hikDevOk "uuid-1" hikConn0

/-- A placeholder `DeviceInfo` used only as an `Option.getD` default. -/
def dummyInfo : DeviceInfo :=
  { id := "", name := "", model := "", manufacturer := "", ip_address := "", port := 0 }

/-- The device record returned by `get_device_info` on the single-camera
double. -/
def hikInfoC : DeviceInfo := hikGdiC.1.toOption.getD dummyInfo

/-- Result of ONVIF `get_device_info` on the camera double with uuid
`"uuid-2"`. -/
def onvifGdiC : Except String DeviceInfo × OnvifConn :=
  onvifGetDeviceInfo onvifDevC "uuid-2" onvifConn0

/-- The device record returned by ONVIF `get_device_info` on the camera
double. -/
def onvifInfoC : DeviceInfo := onvifGdiC.1.toOption.getD dummyInfo

/-- Two discovery hits for the same `(ip, port)` with different payloads,
and one for another address (merge fixtures). -/
def dupA : DiscDevice := { ip := "10.0.0.7", port := 80 }

/-- Second hit for the same `(ip, port)` as `dupA`. -/
def dupA2 : DiscDevice := { ip := "10.0.0.7", port := 80, device_type := "hikvision" }

/-- A hit for a distinct `(ip, port)`. -/
def dupB : DiscDevice := { ip := "10.0.0.8", port := 554 }

/-! ## Theorems -/

/-- C1 counterexample: against a device double whose identity endpoint
answers 200 with valid XML, a first `connect` leaves the connector with
`is_connected = true`, yet a second `connect` still constructs a new
`aiohttp.ClientSession` object (the session counter advances), refuting
"a connect call made while is_connected is already true is a no-op ...
and creates no new HTTP session object". -/
theorem hik_connect_second_call_creates_session :
    hikConn1.is_connected = true ∧
    (hikConnect hikDevOk hikConn1).2.sessionsCreated ≠ hikConn1.sessionsCreated ∧
    (hikConnect hikDevOk hikConn1).2.session ≠ hikConn1.session := by
  decide

/-- C1 (amended): calling `connect` twice in a row yields the same
success/failure outcome as calling it once — the outcome depends only on
the device's (deterministic) response, not on the connector state — but
the call is never a no-op: every `connect`, including one made while
`is_connected` is already true, constructs a fresh HTTP session object
(the session counter advances by one and the current session is
replaced). -/
theorem hik_connect_outcome_stable_but_session_fresh (dev : HikDevice) (c c' : HikConn) :
    (hikConnect dev c).1 = (hikConnect dev c').1 ∧
    (hikConnect dev c).2.sessionsCreated = c.sessionsCreated + 1 ∧
    (hikConnect dev c).2.session = some c.sessionsCreated := by
  unfold hikConnect
  cases dev.deviceInfoResp with
  | failure => exact ⟨rfl, rfl, rfl⟩
  | response s body =>
    by_cases hs : s = 200 <;> by_cases hb : body.valid <;>
      simp [hs, hb]

/-- C2 counterexample: discovery with `methods=["scan"]` over a /30
subnet (hosts 10.0.0.1 and 10.0.0.2) with every candidate port closed
does not return `[]` — the demo fallback injects three synthetic
devices. -/
theorem discover_scan_all_closed_not_empty :
    (discoverDevicesScan ["10.0.0.1", "10.0.0.2"] (fun _ _ => false)).isEmpty = false := by
  decide

/-- C2 (amended): for a scan-only discovery run in which every host is
closed on every candidate port, the merged candidate list is empty and
`discover_devices` returns the three clearly-flagged synthetic demo
candidates (`demo_device = true`, `discovery_method = "demo_simulation"`)
rather than the empty list. -/
theorem discover_scan_all_closed_returns_demo (hosts : List String)
    (openPred : String → Nat → Bool) (h : ∀ ip p, openPred ip p = false) :
    mergeDevices [scanIpRange hosts videoPorts openPred] = [] ∧
    discoverDevicesScan hosts openPred = demoDevices ∧
    ∀ d ∈ discoverDevicesScan hosts openPred, d.demo_device = true := by
  have hscan : scanIpRange hosts videoPorts openPred = [] := by
    unfold scanIpRange
    rw [List.filterMap_eq_nil_iff]
    intro a ha
    rw [List.mem_flatMap] at ha
    obtain ⟨ip, _, ha⟩ := ha
    rw [List.mem_map] at ha
    obtain ⟨port, _, rfl⟩ := ha
    simp [scanIpPort, h ip port]
  have hmerge : mergeDevices [scanIpRange hosts videoPorts openPred] = [] := by
    rw [hscan]; rfl
  refine ⟨hmerge, ?_, ?_⟩
  · unfold discoverDevicesScan
    rw [hmerge]
    rfl
  · unfold discoverDevicesScan
    rw [hmerge]
    decide

/-- C2 witness: the amended statement at the concrete /30 scan with all
ports closed. -/
theorem discover_scan_all_closed_returns_demo_witness :
    mergeDevices [scanIpRange ["10.0.0.1", "10.0.0.2"] videoPorts (fun _ _ => false)] = [] ∧
    discoverDevicesScan ["10.0.0.1", "10.0.0.2"] (fun _ _ => false) = demoDevices ∧
    ∀ d ∈ discoverDevicesScan ["10.0.0.1", "10.0.0.2"] (fun _ _ => false), d.demo_device = true :=
  discover_scan_all_closed_returns_demo ["10.0.0.1", "10.0.0.2"]
    (fun _ _ => false) (fun _ _ => rfl)

/-- Every device kept by the merge loop has a key outside `seen`. -/
theorem mergeLoop_key_not_mem_seen (l : List DiscDevice) (seen : List String)
    (d' : DiscDevice) (hd' : d' ∈ mergeLoop l seen) : mergeKey d' ∉ seen := by
  induction l generalizing seen with
  | nil => simp [mergeLoop] at hd'
  | cons d rest ih =>
    unfold mergeLoop at hd'
    by_cases h : mergeKey d ∈ seen
    · rw [if_pos h] at hd'
      exact ih seen hd'
    · rw [if_neg h] at hd'
      rcases List.mem_cons.mp hd' with rfl | hmem
      · exact h
      · have hnot := ih (mergeKey d :: seen) hmem
        exact fun hc => hnot (List.mem_cons_of_mem _ hc)

/-- The merge loop never keeps two devices with the same key. -/
theorem mergeLoop_pairwise (l : List DiscDevice) (seen : List String) :
    (mergeLoop l seen).Pairwise (fun a b => mergeKey a ≠ mergeKey b) := by
  induction l generalizing seen with
  | nil => simp [mergeLoop]
  | cons d rest ih =>
    unfold mergeLoop
    by_cases h : mergeKey d ∈ seen
    · rw [if_pos h]; exact ih seen
    · rw [if_neg h]
      refine List.Pairwise.cons ?_ (ih _)
      intro b hb hc
      have hnot := mergeLoop_key_not_mem_seen rest (mergeKey d :: seen) b hb
      exact hnot (hc ▸ List.mem_cons_self _ _)

/-- Every device kept by the merge loop is the first device in the input
with its key. -/
theorem mergeLoop_first_seen (l : List DiscDevice) (seen : List String)
    (d' : DiscDevice) (hd' : d' ∈ mergeLoop l seen) :
    l.find? (fun d => mergeKey d = mergeKey d') = some d' := by
  induction l generalizing seen with
  | nil => simp [mergeLoop] at hd'
  | cons d rest ih =>
    unfold mergeLoop at hd'
    by_cases h : mergeKey d ∈ seen
    · rw [if_pos h] at hd'
      have hne : mergeKey d ≠ mergeKey d' := by
        intro hc
        exact mergeLoop_key_not_mem_seen rest seen d' hd' (hc ▸ h)
      rw [List.find?_cons_of_neg _ (by simpa using hne)]
      exact ih seen hd'
    · rw [if_neg h] at hd'
      rcases List.mem_cons.mp hd' with rfl | hmem
      · exact List.find?_cons_of_pos _ (by simp)
      · have hnot := mergeLoop_key_not_mem_seen rest (mergeKey d :: seen) d' hmem
        have hne : mergeKey d ≠ mergeKey d' := by
          intro hc
          exact hnot (hc ▸ List.mem_cons_self _ _)
        rw [List.find?_cons_of_neg _ (by simpa using hne)]
        exact ih (mergeKey d :: seen) hmem

/-- Every input device whose key is outside `seen` is represented in the
merge loop output by some device with the same key. -/
theorem mergeLoop_covers (l : List DiscDevice) (seen : List String)
    (d : DiscDevice) (hd : d ∈ l) (hn : mergeKey d ∉ seen) :
    ∃ d' ∈ mergeLoop l seen, mergeKey d' = mergeKey d := by
  induction l generalizing seen with
  | nil => cases hd
  | cons a rest ih =>
    unfold mergeLoop
    by_cases h : mergeKey a ∈ seen
    · rw [if_pos h]
      rcases List.mem_cons.mp hd with rfl | hmem
      · exact absurd h hn
      · exact ih seen hmem hn
    · rw [if_neg h]
      by_cases hk : mergeKey a = mergeKey d
      · exact ⟨a, List.mem_cons_self _ _, hk⟩
      · rcases List.mem_cons.mp hd with rfl | hmem
        · exact absurd rfl hk
        · have hn2 : mergeKey d ∉ mergeKey a :: seen := by
            intro hc
            rcases List.mem_cons.mp hc with hc | hc
            · exact hk hc.symm
            · exact hn hc
          obtain ⟨d', hd', hk'⟩ := ih (mergeKey a :: seen) hmem hn2
          exact ⟨d', List.mem_cons_of_mem _ hd', hk'⟩

/-- C3 (confirmed): the merge step of `discover_devices` keeps, for each
`(ip, port)` key occurring in the probe results, exactly one device —
the first seen in result order — and the merged list never contains two
entries with the same key. -/
theorem merge_dedup_first_seen_wins (results : List (List DiscDevice)) :
    (mergeDevices results).Pairwise (fun a b => mergeKey a ≠ mergeKey b) ∧
    (∀ d' ∈ mergeDevices results,
      results.flatten.find? (fun d => mergeKey d = mergeKey d') = some d') ∧
    (∀ d ∈ results.flatten,
      ∃ d' ∈ mergeDevices results, mergeKey d' = mergeKey d) :=
  ⟨mergeLoop_pairwise results.flatten [],
   fun d' hd' => mergeLoop_first_seen results.flatten [] d' hd',
   fun d hd => mergeLoop_covers results.flatten [] d hd (List.not_mem_nil _)⟩

/-- C3 witness: on two probe result lists containing two hits with equal
`(ip, port)` and one with a distinct key, the merge keeps the first-seen
duplicate (`dupA`, dropping `dupA2`) and covers both keys. -/
theorem merge_dedup_first_seen_wins_witness :
    (mergeDevices [[dupA, dupA2], [dupB]]).Pairwise
      (fun a b => mergeKey a ≠ mergeKey b) ∧
    [[dupA, dupA2], [dupB]].flatten.find?
      (fun d => mergeKey d = mergeKey dupA) = some dupA ∧
    ∃ d' ∈ mergeDevices [[dupA, dupA2], [dupB]], mergeKey d' = mergeKey dupA2 :=
  ⟨(merge_dedup_first_seen_wins [[dupA, dupA2], [dupB]]).1,
   (merge_dedup_first_seen_wins [[dupA, dupA2], [dupB]]).2.1 dupA (by decide),
   (merge_dedup_first_seen_wins [[dupA, dupA2], [dupB]]).2.2 dupA2 (by decide)⟩

/-- Looking up a key in a dict it was popped from yields nothing. -/
theorem dictLookup_erase_self (cfg : PyDict) (k : String) :
    dictLookup (dictErase cfg k) k = none := by
  unfold dictLookup
  rw [List.find?_eq_none.mpr, Option.map_none']
  intro p hp
  have hmem := (List.mem_filter.mp hp).2
  simp only [decide_not, Bool.not_eq_eq_eq_not, Bool.not_true, decide_eq_false_iff_not] at hmem
  simpa using hmem

/-- Popping one key leaves every other key's binding unchanged. -/
theorem dictLookup_erase_other (cfg : PyDict) (k k' : String) (h : k ≠ k') :
    dictLookup (dictErase cfg k') k = dictLookup cfg k := by
  induction cfg with
  | nil => rfl
  | cons p rest ih =>
    by_cases hp : p.1 = k'
    · have h1 : dictErase (p :: rest) k' = dictErase rest k' := by
        simp [dictErase, hp]
      have h2 : dictLookup (p :: rest) k = dictLookup rest k := by
        unfold dictLookup
        rw [List.find?_cons_of_neg _ (by
          simp only [hp, decide_eq_true_eq]
          exact fun hc => h hc.symm)]
      rw [h1, h2]
      exact ih
    · have h1 : dictErase (p :: rest) k' = p :: dictErase rest k' := by
        simp [dictErase, hp]
      rw [h1]
      by_cases hk : p.1 = k
      · unfold dictLookup
        rw [List.find?_cons_of_pos _ (by simp [hk]),
            List.find?_cons_of_pos _ (by simp [hk])]
      · unfold dictLookup
        rw [List.find?_cons_of_neg _ (by simp [hk]),
            List.find?_cons_of_neg _ (by simp [hk])]
        exact ih

/-- Lookup after popping a whole list of keys: `none` for the popped
keys, unchanged for the rest. -/
theorem dictLookup_foldl_erase (fields : List String) (cfg : PyDict) (k : String) :
    dictLookup (fields.foldl dictErase cfg) k
      = if k ∈ fields then none else dictLookup cfg k := by
  induction fields generalizing cfg with
  | nil => simp
  | cons f fs ih =>
    rw [List.foldl_cons, ih]
    by_cases hk : k ∈ fs
    · simp [hk]
    · by_cases hf : k = f
      · simp [hk, hf, dictLookup_erase_self]
      · simp [hk, hf, dictLookup_erase_other cfg k f hf]

/-- C6 (confirmed): a configuration whose `type` value is not a
registered connector tag makes `create_from_config` raise `ValueError`
with no driver instance constructed, and `create_connector` raises the
same error for any unregistered tag before any constructor runs. -/
theorem factory_rejects_unknown_type :
    (∀ (cfg : PyDict) (t : String),
      dictLookup cfg "type" = some (.str t) →
      t ∉ REGISTERED_CONNECTORS →
      (∀ f ∈ requiredFields, (dictLookup cfg f).isSome = true) →
      (createFromConfig cfg).1 = .error unregisteredMsg) ∧
    (∀ (t : String) (ip port user pass : PyVal) (extra : PyDict),
      t ∉ REGISTERED_CONNECTORS →
      createConnector (.str t) ip port user pass extra = .error unregisteredMsg) := by
  have hcc : ∀ (t : String) (ip port user pass : PyVal) (extra : PyDict),
      t ∉ REGISTERED_CONNECTORS →
      createConnector (.str t) ip port user pass extra = .error unregisteredMsg := by
    intro t ip port user pass extra ht
    unfold createConnector
    simp [ht]
  refine ⟨?_, hcc⟩
  intro cfg t htype ht hreq
  have hfind : requiredFields.find? (fun f => (dictLookup cfg f).isNone) = none := by
    rw [List.find?_eq_none]
    intro f hf
    rw [Option.isNone_iff_eq_none]
    exact Option.isSome_iff_ne_none.mp (hreq f hf)
  unfold createFromConfig
  rw [hfind]
  dsimp only
  simp only [htype, Option.getD_some]
  exact hcc t _ _ _ _ _ ht

/-- C6 witness: the rejection at a concrete config with
`type = "nonexistent"`. -/
theorem factory_rejects_unknown_type_witness :
    (createFromConfig cfgUnknown).1 = .error unregisteredMsg ∧
    createConnector (.str "nonexistent") (.str "10.0.0.5") (.int 80)
      (.str "u") (.str "p") [] = .error unregisteredMsg :=
  ⟨factory_rejects_unknown_type.1 cfgUnknown "nonexistent" rfl (by decide) (by decide),
   factory_rejects_unknown_type.2 "nonexistent" _ _ _ _ [] (by decide)⟩

/-- C9 (confirmed): whenever the required-key check passes,
`create_from_config` pops `type, ip_address, port, username, password`
out of the caller's dict — afterwards those keys are gone and every
other key is untouched — and forwards exactly the remaining keys to the
driver constructor as extra parameters. -/
theorem create_from_config_pops_and_forwards (cfg : PyDict)
    (h : ∀ f ∈ requiredFields, (dictLookup cfg f).isSome = true) :
    (∀ f ∈ requiredFields, dictLookup (createFromConfig cfg).2 f = none) ∧
    (∀ k, k ∉ requiredFields →
      dictLookup (createFromConfig cfg).2 k = dictLookup cfg k) ∧
    (∀ inst, (createFromConfig cfg).1 = .ok inst →
      inst.extra = (createFromConfig cfg).2) := by
  have hfind : requiredFields.find? (fun f => (dictLookup cfg f).isNone) = none := by
    rw [List.find?_eq_none]
    intro f hf
    rw [Option.isNone_iff_eq_none]
    exact Option.isSome_iff_ne_none.mp (h f hf)
  have hcfg : (createFromConfig cfg).2 = requiredFields.foldl dictErase cfg := by
    unfold createFromConfig
    rw [hfind]
  refine ⟨?_, ?_, ?_⟩
  · intro f hf
    rw [hcfg, dictLookup_foldl_erase, if_pos hf]
  · intro k hk
    rw [hcfg, dictLookup_foldl_erase, if_neg hk]
  · intro inst hinst
    unfold createFromConfig at hinst
    rw [hfind] at hinst
    unfold createConnector at hinst
    dsimp only at hinst
    rw [hcfg]
    split at hinst
    · injection hinst with h2
      rw [← h2]
    · exact Except.noConfusion hinst

/-- C9 witness: at a concrete hikvision config, the five required keys
are gone from the caller's dict, the extra key survives, and the
constructed instance received exactly the remaining dict. -/
theorem create_from_config_pops_and_forwards_witness :
    dictLookup (createFromConfig cfgHik).2 "type" = none ∧
    dictLookup (createFromConfig cfgHik).2 "password" = none ∧
    dictLookup (createFromConfig cfgHik).2 "use_https" = dictLookup cfgHik "use_https" ∧
    ∀ inst, (createFromConfig cfgHik).1 = .ok inst →
      inst.extra = (createFromConfig cfgHik).2 :=
  ⟨(create_from_config_pops_and_forwards cfgHik (by decide)).1 "type" (by decide),
   (create_from_config_pops_and_forwards cfgHik (by decide)).1 "password" (by decide),
   (create_from_config_pops_and_forwards cfgHik (by decide)).2.1 "use_https" (by decide),
   (create_from_config_pops_and_forwards cfgHik (by decide)).2.2⟩

/-- C10 (confirmed): in both drivers the `id` of the `DeviceInfo` built
by `get_device_info` is exactly the `uuid4` value freshly generated
during that call (modelled by the `uid` parameter) — for every device
behaviour and every starting state — so it depends on no field of the
device's response, and two calls supplied with distinct fresh uuids
return unrelated ids. -/
theorem device_info_id_is_fresh_uuid :
    (∀ (dev : HikDevice) (uid : String) (c : HikConn) (info : DeviceInfo) (c1 : HikConn),
      hikGetDeviceInfo dev uid c = (.ok info, c1) → info.id = uid) ∧
    (∀ (dev : OnvifDevice) (uid : String) (c : OnvifConn) (info : DeviceInfo) (c1 : OnvifConn),
      onvifGetDeviceInfo dev uid c = (.ok info, c1) → info.id = uid) := by
  constructor
  · intro dev uid c info c1 hok
    unfold hikGetDeviceInfo at hok
    repeat' split at hok
    all_goals rw [Prod.ext_iff] at hok
    all_goals first
      | exact Except.noConfusion hok.1
      | (injection hok.1 with h2; rw [← h2])
  · intro dev uid c info c1 hok
    unfold onvifGetDeviceInfo at hok
    repeat' split at hok
    all_goals rw [Prod.ext_iff] at hok
    all_goals first
      | exact Except.noConfusion hok.1
      | (injection hok.1 with h2; rw [← h2])

/-- C10 witness: at concrete device doubles and fresh uuids `"uuid-1"` /
`"uuid-2"`, the returned descriptors carry exactly those ids. -/
theorem device_info_id_is_fresh_uuid_witness :
    hikInfoC.id = "uuid-1" ∧ onvifInfoC.id = "uuid-2" :=
  ⟨device_info_id_is_fresh_uuid.1 hikDevOk "uuid-1" hikConn0 hikInfoC hikGdiC.2 rfl,
   device_info_id_is_fresh_uuid.2 onvifDevC "uuid-2" onvifConn0 onvifInfoC onvifGdiC.2 rfl⟩

/-- When the channel probe fails or lists nothing, `get_device_info`
computes a channel count of 1. -/
theorem hikNumChannels_default (dev : HikDevice)
    (hch : hikChannelProbeFailedOrEmpty dev = true) : hikNumChannels dev = 1 := by
  unfold hikNumChannels
  split
  · rename_i chs heq
    unfold hikChannelProbeFailedOrEmpty at hch
    rw [heq] at hch
    simp at hch
    simp [hch]
  · rfl

/-- C4 (confirmed): for a Hikvision device whose identity endpoint
answers 200 with valid XML but whose channel-listing probe fails, answers
non-200, or returns zero channels, `get_device_info` returns a
`DeviceInfo` with `channels = 1`, and a subsequent `list_streams` on the
resulting state returns exactly the two single-camera streams — a Main
and a Sub stream, both on channel 1. -/
theorem hik_channel_default_two_streams (dev : HikDevice) (uid uid2 : String)
    (c : HikConn) (body : HikDeviceXml) (info : DeviceInfo) (c1 : HikConn)
    (hresp : dev.deviceInfoResp = .response 200 body)
    (hvalid : body.valid = true)
    (hch : hikChannelProbeFailedOrEmpty dev = true)
    (hok : hikGetDeviceInfo dev uid c = (.ok info, c1)) :
    info.channels = 1 ∧
    hikListStreams dev uid2 c1 = (.ok (hikSingleStreams c1 info), c1) ∧
    (hikSingleStreams c1 info).length = 2 ∧
    ∀ s ∈ hikSingleStreams c1 info, s.channel = 1 := by
  have hnum : hikNumChannels dev = 1 := hikNumChannels_default dev hch
  have hshape : c1.is_connected = true ∧ c1.device_info = some info ∧
      info.channels = 1 := by
    by_cases hc : c.is_connected = true
    · unfold hikGetDeviceInfo at hok
      rw [if_pos hc, hresp] at hok
      simp [hvalid] at hok
      obtain ⟨h2, h3⟩ := hok
      rw [← h2, ← h3]
      exact ⟨hc, rfl, hnum⟩
    · have hcc : hikConnect dev c = (.ok true,
          { c with session := some c.sessionsCreated,
                   sessionsCreated := c.sessionsCreated + 1,
                   is_connected := true }) := by
        unfold hikConnect
        rw [hresp]
        simp [hvalid]
      unfold hikGetDeviceInfo at hok
      rw [if_neg hc, hcc, hresp] at hok
      simp [hvalid] at hok
      obtain ⟨h2, h3⟩ := hok
      rw [← h2, ← h3]
      exact ⟨rfl, rfl, hnum⟩
  obtain ⟨hconn, hdi, hchan⟩ := hshape
  refine ⟨hchan, ?_, rfl, ?_⟩
  · unfold hikListStreams
    rw [if_pos hconn]
    dsimp only
    rw [hdi]
    dsimp only
    rw [if_pos (by rw [hchan])]
  · intro s hs
    simp only [hikSingleStreams, List.mem_cons, List.mem_singleton,
      List.not_mem_nil, or_false] at hs
    rcases hs with rfl | rfl <;> rfl

/-- C4 witness: the single-camera double (`channelsResp` raises) yields
`channels = 1` and exactly the Main/Sub pair on channel 1. -/
theorem hik_channel_default_two_streams_witness :
    hikInfoC.channels = 1 ∧
    hikListStreams hikDevOk "u2" hikGdiC.2
      = (.ok (hikSingleStreams hikGdiC.2 hikInfoC), hikGdiC.2) ∧
    (hikSingleStreams hikGdiC.2 hikInfoC).length = 2 ∧
    ∀ s ∈ hikSingleStreams hikGdiC.2 hikInfoC, s.channel = 1 :=
  hik_channel_default_two_streams hikDevOk "uuid-1" "u2" hikConn0
    { valid := true } hikInfoC hikGdiC.2 rfl rfl rfl rfl

/-- A failing PTZ probe (raise or non-200) leaves the channel's PTZ flag
false. -/
theorem hikPtzCapable_false_of_fails (dev : HikDevice) (cid : String)
    (h : hikPtzProbeFails dev cid = true) : hikPtzCapable dev cid = false := by
  unfold hikPtzCapable
  unfold hikPtzProbeFails at h
  split
  · rename_i x heq
    rw [heq] at h
    simp at h
  · rfl

/-- For a channel with a non-empty id whose PTZ probe fails, the loop
body still emits the main/sub pair, with `ptz_capable = false` on both
streams and the channel number taken from the id suffix. -/
theorem hikChannelStreams_ptz_false (dev : HikDevice) (c : HikConn)
    (di : DeviceInfo) (ch : HikChannelXml) (cid : String)
    (hid : ch.id = some cid) (hne : cid ≠ "")
    (hfail : hikPtzProbeFails dev cid = true) :
    (hikChannelStreams dev c di ch).length = 2 ∧
    ∀ s ∈ hikChannelStreams dev c di ch,
      s.ptz_capable = false ∧
      s.channel = (digitsToNat (hikChannelNumStr cid) : Int) := by
  have hptz := hikPtzCapable_false_of_fails dev cid hfail
  unfold hikChannelStreams
  rw [hid]
  simp only [Option.getD_some]
  rw [if_neg hne]
  refine ⟨rfl, ?_⟩
  intro s hs
  simp only [List.mem_cons, List.mem_singleton, List.not_mem_nil, or_false] at hs
  rcases hs with rfl | rfl <;> simp [hptz]

/-- The multi-channel stream list holds exactly one main/sub pair per
channel with a non-empty id. -/
theorem hik_flatMap_length (dev : HikDevice) (c : HikConn) (di : DeviceInfo)
    (chs : List HikChannelXml) :
    (chs.flatMap (hikChannelStreams dev c di)).length
      = 2 * chs.countP (fun ch => decide (ch.id.getD "" ≠ "")) := by
  induction chs with
  | nil => rfl
  | cons ch rest ih =>
    rw [List.flatMap_cons, List.length_append, ih, List.countP_cons]
    by_cases h : ch.id.getD "" = ""
    · have hnil : hikChannelStreams dev c di ch = [] := by
        unfold hikChannelStreams
        rw [if_pos h]
      rw [hnil]
      simp [h]
    · have hlen : (hikChannelStreams dev c di ch).length = 2 := by
        unfold hikChannelStreams
        rw [if_neg h]
        rfl
      rw [hlen]
      simp only [h, decide_not]
      simp
      omega

/-- C5 (confirmed): in the multi-channel case (connected state,
`device_info` present with more than one channel, channel listing
answering 200), `list_streams` succeeds with one main/sub pair per
channel with a non-empty id; a channel whose PTZ probe raises or answers
non-200 is not omitted — its two streams appear with
`ptz_capable = false` — and the remaining channels are still
enumerated. -/
theorem hik_ptz_degradation (dev : HikDevice) (uid : String) (c : HikConn)
    (di : DeviceInfo) (chs : List HikChannelXml)
    (hconn : c.is_connected = true)
    (hdi : c.device_info = some di)
    (hmulti : 1 < di.channels)
    (hchs : dev.channelsResp = .response 200 chs) :
    hikListStreams dev uid c = (.ok (chs.flatMap (hikChannelStreams dev c di)), c) ∧
    (chs.flatMap (hikChannelStreams dev c di)).length
      = 2 * chs.countP (fun ch => decide (ch.id.getD "" ≠ "")) ∧
    ∀ ch ∈ chs, ∀ cid, ch.id = some cid → cid ≠ "" →
      hikPtzProbeFails dev cid = true →
      (hikChannelStreams dev c di ch).length = 2 ∧
      ∀ s ∈ hikChannelStreams dev c di ch,
        s ∈ chs.flatMap (hikChannelStreams dev c di) ∧
        s.ptz_capable = false ∧
        s.channel = (digitsToNat (hikChannelNumStr cid) : Int) := by
  refine ⟨?_, hik_flatMap_length dev c di chs, ?_⟩
  · unfold hikListStreams
    rw [if_pos hconn]
    dsimp only
    rw [hdi]
    dsimp only
    rw [if_neg (not_le.mpr hmulti), hchs]
    simp
  · intro ch hch cid hid hne hfail
    obtain ⟨hlen, hprops⟩ := hikChannelStreams_ptz_false dev c di ch cid hid hne hfail
    refine ⟨hlen, fun s hs => ⟨List.mem_flatMap.mpr ⟨ch, hch, hs⟩,
      (hprops s hs).1, (hprops s hs).2⟩⟩

/-- C5 witness: on the 2-channel recorder double with all PTZ probes
raising, `list_streams` succeeds and channel `"ip_1_1"` keeps its
main/sub pair with `ptz_capable = false`. -/
theorem hik_ptz_degradation_witness :
    hikListStreams hikDevMulti "u9" hikConnMulti
      = (.ok (hikChsMulti.flatMap
          (hikChannelStreams hikDevMulti hikConnMulti diMulti)), hikConnMulti) ∧
    (hikChannelStreams hikDevMulti hikConnMulti diMulti
      { id := some "ip_1_1", name := some "Cam A" }).length = 2 ∧
    ∀ s ∈ hikChannelStreams hikDevMulti hikConnMulti diMulti
        { id := some "ip_1_1", name := some "Cam A" },
      s ∈ hikChsMulti.flatMap (hikChannelStreams hikDevMulti hikConnMulti diMulti) ∧
      s.ptz_capable = false ∧
      s.channel = (digitsToNat (hikChannelNumStr "ip_1_1") : Int) := by
  have h := hik_ptz_degradation hikDevMulti "u9" hikConnMulti diMulti hikChsMulti
    rfl rfl (by decide) rfl
  have h3 := h.2.2 { id := some "ip_1_1", name := some "Cam A" } (by decide)
    "ip_1_1" rfl (by decide) rfl
  exact ⟨h.1, h3.1, h3.2⟩

/-- C7 counterexample: the ONVIF driver numbers channels from the 0-based
`enumerate` index, so a device with one media profile returns a stream
whose `channel` is 0 — not every returned `StreamInfo` has
`channel ≥ 1`. -/
theorem onvif_stream_channel_below_one :
    ((onvifListStreams onvifDevC (onvifConnect onvifDevC onvifConn0).2).1.toOption.getD
      []).all (fun s => decide (1 ≤ s.channel)) = false := by
  decide

/-- The ONVIF stream loop started at enumeration index `k` produces the
channel sequence `k, k+1, ...` along the profile list. -/
theorem onvifStreams_channels_aux (profiles : List OnvifProfile) (ptz : Bool)
    (did : Option String) (k : Nat) :
    ((profiles.enumFrom k).map
        (fun ip => onvifStreamOfProfile ptz did ip.1 ip.2)).map (fun s => s.channel)
      = (List.range' k profiles.length).map (fun n => (n : Int)) := by
  induction profiles generalizing k with
  | nil => rfl
  | cons p rest ih =>
    simp only [List.enumFrom, List.map_cons, List.length_cons, List.range']
    rw [ih (k + 1)]
    rfl

/-- C7 (amended): the ONVIF driver assigns `channel = idx`, the 0-based
profile index — the stream of the k-th profile carries channel k, so the
first stream has channel 0 — while the Hikvision driver reports the
single-camera case with both streams on channel 1. -/
theorem stream_channel_indexing :
    (∀ (profiles : List OnvifProfile) (ptz : Bool) (did : Option String),
      (onvifStreamsOfProfiles profiles ptz did).map (fun s => s.channel)
        = (List.range profiles.length).map (fun n => (n : Int))) ∧
    (∀ (dev : HikDevice) (uid : String) (c : HikConn) (di : DeviceInfo)
        (streams : List StreamInfo) (c2 : HikConn),
      c.is_connected = true → c.device_info = some di → di.channels ≤ 1 →
      hikListStreams dev uid c = (.ok streams, c2) →
      ∀ s ∈ streams, s.channel = 1) := by
  constructor
  · intro profiles ptz did
    rw [List.range_eq_range']
    exact onvifStreams_channels_aux profiles ptz did 0
  · intro dev uid c di streams c2 hconn hdi hle hok
    unfold hikListStreams at hok
    rw [if_pos hconn] at hok
    dsimp only at hok
    rw [hdi] at hok
    dsimp only at hok
    rw [if_pos hle] at hok
    rw [Prod.ext_iff] at hok
    have h2 := hok.1
    injection h2 with h2
    intro s hs
    rw [← h2] at hs
    simp only [hikSingleStreams, List.mem_cons, List.mem_singleton,
      List.not_mem_nil, or_false] at hs
    rcases hs with rfl | rfl <;> rfl

/-- C7 witness: the amended statement at one concrete profile (channel
list `[0]`) and at the concrete single-camera Hikvision run (both
channels 1). -/
theorem stream_channel_indexing_witness :
    (onvifStreamsOfProfiles
        [{ token := "prof1", name := "Profile 1", uri := "rtsp://cam/1" }] false none).map
      (fun s => s.channel) = (List.range 1).map (fun n => (n : Int)) ∧
    ∀ s ∈ hikSingleStreams hikGdiC.2 hikInfoC, s.channel = 1 :=
  ⟨stream_channel_indexing.1
      [{ token := "prof1", name := "Profile 1", uri := "rtsp://cam/1" }] false none,
   stream_channel_indexing.2 hikDevOk "u3" hikGdiC.2 hikInfoC
      (hikSingleStreams hikGdiC.2 hikInfoC) hikGdiC.2 rfl rfl (by decide) rfl⟩

/-- Replacing the element at a valid index exchanges its contribution to
`countP`. -/
theorem countP_set_exchange (l : List TaskPhase) (i : Nat) (a b : TaskPhase)
    (p : TaskPhase → Bool) (h : l.get? i = some a) :
    (l.set i b).countP p + (if p a then 1 else 0)
      = l.countP p + (if p b then 1 else 0) := by
  induction l generalizing i with
  | nil => simp at h
  | cons x xs ih =>
    cases i with
    | zero =>
      simp only [List.get?] at h
      injection h with h
      subst h
      simp only [List.set, List.countP_cons]
      omega
    | succ m =>
      simp only [List.get?] at h
      have hx := ih m h
      simp only [List.set, List.countP_cons]
      omega

/-- No task of the initial scan state is in flight. -/
theorem countInflight_replicate_waiting (n : Nat) :
    countInflight (List.replicate n .waiting) = 0 := by
  induction n with
  | zero => rfl
  | succ m ih =>
    rw [List.replicate_succ]
    unfold countInflight at ih ⊢
    rw [List.countP_cons]
    simp [ih]

/-- Semaphore accounting: in every reachable scan state the in-flight
count plus the remaining permits equals the concurrency limit. -/
theorem scan_sem_invariant (k n : Nat) (st : ScanSt)
    (h : ScanReachable k n st) : countInflight st.tasks + st.sem = k := by
  unfold ScanReachable at h
  induction h with
  | refl => simp [scanInit, countInflight_replicate_waiting]
  | tail hsteps hstep ih =>
    rename_i b c
    cases hstep with
    | acquire i hi hs =>
      have hx := countP_set_exchange b.tasks i .waiting .inflight
        (fun t => decide (t = TaskPhase.inflight)) hi
      simp at hx
      unfold countInflight at ih ⊢
      dsimp only at ih ⊢
      omega
    | finish i hi =>
      have hx := countP_set_exchange b.tasks i .inflight .done
        (fun t => decide (t = TaskPhase.inflight)) hi
      simp at hx
      unfold countInflight at ih ⊢
      dsimp only at ih ⊢
      omega

/-- C8 (confirmed): during a port scan with concurrency limit `k`, every
task attempts its TCP connection only while holding the shared semaphore,
so in every reachable interleaving the number of simultaneously in-flight
connection attempts never exceeds `k`. -/
theorem scan_bounded_concurrency (k n : Nat) (st : ScanSt)
    (h : ScanReachable k n st) : countInflight st.tasks ≤ k := by
  have hinv := scan_sem_invariant k n st h
  omega

/-- C8 witness: with limit 2 and 3 tasks, the state reached after one
task acquires the semaphore has in-flight count within the limit. -/
theorem scan_bounded_concurrency_witness :
    countInflight (ScanSt.mk 1
      ((List.replicate 3 TaskPhase.waiting).set 0 .inflight)).tasks ≤ 2 :=
  scan_bounded_concurrency 2 3 _
    (Relation.ReflTransGen.single
      (ScanStep.acquire (scanInit 2 3) 0 rfl (by decide)))

end DetecO
